import Mathlib

/-!
Shallow embedding of the baccarat score-board core (`round-result.ts` and the
down-road generation / prediction code shipped with it), together with theorems
checking the natural-language specification against it.

Conventions of the embedding:
* JavaScript sparse arrays become `List (Option _)`; an index beyond the list's
  length reads as `none`, matching the `undefined` a JS indexed read yields.
* Reading a property of an `undefined` value is a thrown `TypeError`; functions
  that can reach such a read return `Except Unit _`, with `.error ()` standing
  for the throw.
* JS numbers used as grid dimensions are modelled as `ℚ` (so that the
  `Number.isInteger` test is meaningful); `order` values are modelled as `ℤ`.
-/

deriving instance DecidableEq for Except

namespace Baccarat

/-- `GameResult` enum from `round-result.ts`. -/
inductive GameResult
  | Tie
  | BankerWin
  | PlayerWin
deriving DecidableEq, Repr

/-- `PairResult` enum from `round-result.ts`. -/
inductive PairResult
  | NoPair
  | BankerPair
  | PlayerPair
  | AllPair
deriving DecidableEq, Repr

/-- `RoundResult` class from `round-result.ts` (all fields readonly). -/
structure RoundResult where
  order : Int
  result : Int
  gameResult : GameResult
  pairResult : PairResult
deriving DecidableEq, Repr

/-- `RoundResult.from`: builds a new instance from the four fields of the
source (`from` is a Lean keyword, hence the trailing prime). -/
def RoundResult.from' (source : RoundResult) : RoundResult :=
  ⟨source.order, source.result, source.gameResult, source.pairResult⟩

/-- Big-road cell as seen by the down-road generator, which reads only its
`order` field. -/
structure BigRoadItem where
  order : Int
deriving DecidableEq, Repr

/-- `RoadRow<T>`: one row of a sparse grid; `none` is an `undefined` slot. -/
abbrev RoadRow (T : Type) := List (Option T)

/-- `RoadArray<T>`: the sparse grid, a list of rows. -/
abbrev RoadArray (T : Type) := List (RoadRow T)

/-- `DownRoadItem` from `down-road.ts`. -/
structure DownRoadItem where
  order : Int
  repetition : Bool
deriving DecidableEq, Repr

/-- The helper `IndexItem` record used inside `generateDownRoadData`. -/
structure IndexItem where
  rowIndex : Nat
  columnIndex : Nat
  order : Int
deriving DecidableEq, Repr

/-- JS `row[c]` on a sparse row: an index beyond the row's length and an
explicit hole both read as `undefined`. -/
def rowAt {T : Type} (row : RoadRow T) (c : Nat) : Option T :=
  (row[c]?).getD none

/-- JS `grid[r][c]` for an in-bounds row `r`: sparse lookup, absent = `none`.
(When `r` itself is out of bounds this returns `none` as well; the embedding
only uses it where the source has already established the row exists, except
in `generateDownRoadData` where the two possibly-missing row reads are handled
explicitly.) -/
def cellAt (g : RoadArray BigRoadItem) (r c : Nat) : Option BigRoadItem :=
  (g[r]?).bind fun row => rowAt row c

/-- JS `grid[r][c]` where the column index is a signed integer expression: a
negative index reads as `undefined`. -/
def cellAtI (g : RoadArray BigRoadItem) (r : Nat) (c : Int) : Option BigRoadItem :=
  if c < 0 then none else cellAt g r c.toNat

/-- `Math.max(0, ...bigRoadGraph.map(row => row.length))`. -/
def maxColumnCount (g : RoadArray BigRoadItem) : Nat :=
  (g.map List.length).foldr max 0

/-- The inner row loop of `generateDownRoadData` for one column: the
`IndexItem`s pushed for column `c`, in row order. -/
def columnScan (g : RoadArray BigRoadItem) (c : Nat) : List IndexItem :=
  (List.range g.length).filterMap fun r =>
    (cellAt g r c).map fun item => ⟨r, c, item.order⟩

/-- `lengthArr[c]` for `0 ≤ c < maxColumnCount`: the occupied-cell count of
column `c` (`currentLength` accumulated by the row loop). -/
def colLength (g : RoadArray BigRoadItem) (c : Nat) : Nat :=
  (columnScan g c).length

/-- `lengthArr[i]` for a signed index expression: `undefined` (`none`) outside
`[0, maxColumnCount)`, the column length inside. -/
def lengthAt (g : RoadArray BigRoadItem) (i : Int) : Option Nat :=
  if 0 ≤ i ∧ i < (maxColumnCount g : Int) then some (colLength g i.toNat) else none

/-- `indexArr` right after the two nested loops: all occupied cells, column by
column, each row scanned top to bottom. -/
def indexArr (g : RoadArray BigRoadItem) : List IndexItem :=
  (List.range (maxColumnCount g)).flatMap (columnScan g)

/-- The `DownRoadItem` pushed for one `IndexItem` (body of the `forEach`):
row 0 compares `lengthArr[c − rowGap − 1]` with `lengthArr[c − 1]` under JS
`===` (where `undefined === undefined` is `true`); other rows check the cell
above-left (`lastItem`) and the cell left (`targetItem`) at offset `rowGap`. -/
def downMark (g : RoadArray BigRoadItem) (rowGap : Nat) (it : IndexItem) : DownRoadItem :=
  if it.rowIndex = 0 then
    { order := it.order
      repetition :=
        decide (lengthAt g ((it.columnIndex : Int) - rowGap - 1) =
          lengthAt g ((it.columnIndex : Int) - 1)) }
  else
    { order := it.order
      repetition :=
        (cellAtI g (it.rowIndex - 1) ((it.columnIndex : Int) - rowGap)).isNone ||
        (cellAtI g it.rowIndex ((it.columnIndex : Int) - rowGap)).isSome }

/-- The comparison relation of `indexArr.sort((a, b) => a.order - b.order)`. -/
def orderLE (a b : IndexItem) : Prop := a.order ≤ b.order

instance : DecidableRel orderLE := fun a b => inferInstanceAs (Decidable (a.order ≤ b.order))

/-- `indexArr.sort((a, b) => a.order - b.order)` followed by the `forEach`
that keeps items with `order ≥ beginIndex` and pushes their down marks.
JS `Array.prototype.sort` is a stable ascending sort; `insertionSort` with a
non-strict comparison is exactly that stable sort. -/
def downRoadFrom (g : RoadArray BigRoadItem) (rowGap : Nat) (beginIndex : Int) :
    List DownRoadItem :=
  ((indexArr g).insertionSort orderLE).filterMap fun it =>
    if beginIndex ≤ it.order then some (downMark g rowGap it) else none

/-- `generateDownRoadData` from `down-road.ts`.  The `beginIndex` block reads
`bigRoadGraph[1][rowGap]` and `bigRoadGraph[0][rowGap + 1]`: when the grid has
fewer than two rows the row read yields `undefined` and the property access on
it throws (`.error ()`); otherwise the first present cell among the two fixes
`beginIndex`, and with both absent the function returns the empty array. -/
def generateDownRoadData (bigRoadGraph : RoadArray BigRoadItem) (rowGap : Nat) :
    Except Unit (List DownRoadItem) :=
  match bigRoadGraph[1]? with
  | none => .error ()
  | some row1 =>
    match bigRoadGraph[0]? with
    | none => .error ()
    | some row0 =>
      match rowAt row1 rowGap with
      | some item1 => .ok (downRoadFrom bigRoadGraph rowGap item1.order)
      | none =>
        match rowAt row0 (rowGap + 1) with
        | some item2 => .ok (downRoadFrom bigRoadGraph rowGap item2.order)
        | none => .ok []

/-- The `beginIndex` selection of `generateDownRoadData`, as a partial value:
`none` when both probed cells are absent (the early `return`). -/
def beginIndexOf (g : RoadArray BigRoadItem) (rowGap : Nat) : Option Int :=
  match cellAt g 1 rowGap with
  | some item1 => some item1.order
  | none =>
    match cellAt g 0 (rowGap + 1) with
    | some item2 => some item2.order
    | none => none

/-- `Road.getItem`: `this.array[rowIndex][columnIndex]`.  A row index outside
the backing array makes the column access throw (`.error ()`); an in-bounds
row totally yields the cell or `undefined`. -/
def Road.getItem {T : Type} (array : RoadArray T) (rowIndex columnIndex : Nat) :
    Except Unit (Option T) :=
  match array[rowIndex]? with
  | none => .error ()
  | some row => .ok (rowAt row columnIndex)

/-- The state a successfully constructed `Road` holds. -/
structure RoadState where
  row : Rat
  column : Rat
  results : List RoundResult
deriving DecidableEq

/-- The `Road` constructor: throws unless both dimensions pass
`Number.isInteger` (denominator 1 in the `ℚ` model) and are positive. -/
def roadConstruct (row column : Rat) (results : List RoundResult) :
    Except Unit RoadState :=
  if ¬(row.den = 1) ∨ ¬(column.den = 1) ∨ row ≤ 0 ∨ column ≤ 0 then .error ()
  else .ok ⟨row, column, results⟩

/-- The `rowCount` getter. -/
def RoadState.rowCount (s : RoadState) : Rat := s.row

/-- The `columnCount` getter. -/
def RoadState.columnCount (s : RoadState) : Rat := s.column

/-- `DownRoad.getPrediction`, parametric in the primary-grid collaborator
(`SharedBigRoad` is not among the sources): value-copy every recorded round,
push the hypothetical round, build the big road over the copy, generate the
down-road data, and answer with the last item's `repetition` (or `undefined`
when the data is empty).  A throw inside the generation propagates. -/
def getPrediction (build : List RoundResult → RoadArray BigRoadItem)
    (roundResults : List RoundResult) (fakeNextRound : RoundResult)
    (downRoadGap : Nat) : Except Unit (Option Bool) :=
  let fakeRoundResults := (roundResults.map RoundResult.from') ++ [fakeNextRound]
  let fakeBigRoad := build fakeRoundResults
  (generateDownRoadData fakeBigRoad downRoadGap).map fun fakeDownRoadData =>
    (fakeDownRoadData.getLast?).map fun it => it.repetition

/-- A populated column: it holds at least one occupied cell. -/
def populatedCol (g : RoadArray BigRoadItem) (c : Nat) : Prop :=
  0 < colLength g c

instance (g : RoadArray BigRoadItem) : DecidablePred (populatedCol g) :=
  fun c => inferInstanceAs (Decidable (0 < colLength g c))

/-- The number of populated columns of the grid. -/
def populatedCount (g : RoadArray BigRoadItem) : Nat :=
  ((List.range (maxColumnCount g)).filter fun c => decide (populatedCol g c)).length

/-- The populated columns form an initial segment of the column range — true
of every primary grid, whose columns are created left to right. -/
def LeftFilled (g : RoadArray BigRoadItem) : Prop :=
  ∀ c, c < maxColumnCount g → ∀ d, d < c → populatedCol g c → populatedCol g d

instance (g : RoadArray BigRoadItem) : Decidable (LeftFilled g) :=
  inferInstanceAs
    (Decidable (∀ c, c < maxColumnCount g → ∀ d, d < c → populatedCol g c → populatedCol g d))

/-- The length of row `r` of the grid (`0` when the row does not exist). -/
def rowLenAt (g : RoadArray BigRoadItem) (r : Nat) : Nat :=
  ((g[r]?).map List.length).getD 0

/-- Modelled from the spec: the primary-grid collaborator (`SharedBigRoad`) is
not among the sources, so the way the primary grid of a round history changes
when one round is appended is modelled from the spec's words about that
collaborator: the grid is "row-major, rows fixed count, columns grow over
time" and rounds are "appended only, never edited or removed" (§3), so the
row count is unchanged, rows only get longer, and every occupied cell stays
occupied by the same item; and a streak column is "a maximal run of
same-winner rounds" (glossary) with columns growing rightward, so a column
that lacked its row-1 cell while a later column had already begun at row 0
never gains that cell afterwards. -/
def GridEvolves (g g' : RoadArray BigRoadItem) : Prop :=
  g.length = g'.length ∧
  (∀ r, r < g.length → rowLenAt g r ≤ rowLenAt g' r) ∧
  (∀ r, r < g.length → ∀ c, c < maxColumnCount g →
    (cellAt g r c).isSome = true → cellAt g' r c = cellAt g r c) ∧
  (∀ c, c < maxColumnCount g' →
    cellAt g 1 c = none → cellAt g 0 (c + 1) ≠ none → cellAt g' 1 c = none)

instance (g g' : RoadArray BigRoadItem) : Decidable (GridEvolves g g') :=
  inferInstanceAs (Decidable (_ ∧ _ ∧ _ ∧ _))

/-- Modelled from the spec: `SharedBigRoad` is not among the sources; per §3
its raw grid is "row-major, rows fixed count".  This model fixes only that row
structure — it allocates the fixed number of rows.  It is used solely on
inputs where the down-road generator faults before reading any cell (grids
with fewer than two rows), so the cell population is irrelevant there and the
rows are left empty. -/
def sharedBigRoadRawArrayRows (rowCount : Nat) (_rounds : List RoundResult) :
    RoadArray BigRoadItem :=
  List.replicate rowCount []

/-- Concrete two-row grid with column lengths `[1, 1, 2, 1]` and orders
`(0,0)=1, (0,1)=2, (0,2)=3, (1,2)=4, (0,3)=5`. -/
def cexGrid1 : RoadArray BigRoadItem :=
  [[some ⟨1⟩, some ⟨2⟩, some ⟨3⟩, some ⟨5⟩],
   [none, none, some ⟨4⟩, none]]

/-- Concrete two-row grid with column lengths `[1, 2, 2]` and orders
`(0,0)=1, (0,1)=2, (1,1)=3, (0,2)=4, (1,2)=5`. -/
def wGrid : RoadArray BigRoadItem :=
  [[some ⟨1⟩, some ⟨2⟩, some ⟨4⟩],
   [none, some ⟨3⟩, some ⟨5⟩]]

/-- `wGrid` after one more round started a new streak column at `(0, 3)`. -/
def wGridNext : RoadArray BigRoadItem :=
  [[some ⟨1⟩, some ⟨2⟩, some ⟨4⟩, some ⟨6⟩],
   [none, some ⟨3⟩, some ⟨5⟩, none]]

/-! ### Basic lemmas about the grid embedding -/

theorem rowAt_eq_some {T : Type} {row : RoadRow T} {c : Nat} {item : T} :
    rowAt row c = some item ↔ row[c]? = some (some item) := by
  unfold rowAt
  cases h : row[c]? with
  | none => simp
  | some o => simp

theorem maxColumnCount_cons (row : RoadRow BigRoadItem) (g : RoadArray BigRoadItem) :
    maxColumnCount (row :: g) = max row.length (maxColumnCount g) := rfl

theorem le_maxColumnCount :
    ∀ (g : RoadArray BigRoadItem) (r : Nat) (row : RoadRow BigRoadItem),
      g[r]? = some row → row.length ≤ maxColumnCount g
  | [], r, row, h => by simp at h
  | row' :: g, 0, row, h => by
      rw [List.getElem?_cons_zero, Option.some_inj] at h
      subst h
      exact (Nat.le_max_left _ _).trans_eq (maxColumnCount_cons _ g).symm
  | row' :: g, r + 1, row, h => by
      rw [List.getElem?_cons_succ] at h
      exact (le_maxColumnCount g r row h).trans
        ((Nat.le_max_right _ _).trans_eq (maxColumnCount_cons row' g).symm)

theorem maxColumnCount_le :
    ∀ (g : RoadArray BigRoadItem) (n : Nat),
      (∀ (r : Nat) (row : RoadRow BigRoadItem), g[r]? = some row → row.length ≤ n) →
      maxColumnCount g ≤ n
  | [], n, _ => Nat.zero_le n
  | row :: g, n, h => by
      rw [maxColumnCount_cons]
      refine Nat.max_le.2 ⟨h 0 row List.getElem?_cons_zero, maxColumnCount_le g n ?_⟩
      intro r row' hr
      exact h (r + 1) row' (by simpa using hr)

theorem cellAt_eq_some {g : RoadArray BigRoadItem} {r c : Nat} {item : BigRoadItem} :
    cellAt g r c = some item ↔ ∃ row, g[r]? = some row ∧ rowAt row c = some item := by
  unfold cellAt
  cases h : g[r]? with
  | none => simp
  | some row => simp

theorem cellAt_row_lt {g : RoadArray BigRoadItem} {r c : Nat} {item : BigRoadItem}
    (h : cellAt g r c = some item) : r < g.length := by
  obtain ⟨row, hrow, -⟩ := cellAt_eq_some.1 h
  obtain ⟨hlt, -⟩ := List.getElem?_eq_some_iff.1 hrow
  exact hlt

theorem cellAt_col_lt {g : RoadArray BigRoadItem} {r c : Nat} {item : BigRoadItem}
    (h : cellAt g r c = some item) : c < maxColumnCount g := by
  obtain ⟨row, hrow, hcell⟩ := cellAt_eq_some.1 h
  have hc : c < row.length := by
    obtain ⟨hlt, -⟩ := List.getElem?_eq_some_iff.1 (rowAt_eq_some.1 hcell)
    exact hlt
  exact hc.trans_le (le_maxColumnCount g r row hrow)

theorem mem_columnScan {g : RoadArray BigRoadItem} {c : Nat} {it : IndexItem} :
    it ∈ columnScan g c ↔
      ∃ (r : Nat) (item : BigRoadItem), cellAt g r c = some item ∧ it = ⟨r, c, item.order⟩ := by
  unfold columnScan
  simp only [List.mem_filterMap, List.mem_range, Option.map_eq_some']
  constructor
  · rintro ⟨r, -, item, hcell, rfl⟩
    exact ⟨r, item, hcell, rfl⟩
  · rintro ⟨r, item, hcell, rfl⟩
    exact ⟨r, cellAt_row_lt hcell, item, hcell, rfl⟩

theorem mem_indexArr {g : RoadArray BigRoadItem} {it : IndexItem} :
    it ∈ indexArr g ↔
      ∃ (r c : Nat) (item : BigRoadItem), cellAt g r c = some item ∧ it = ⟨r, c, item.order⟩ := by
  unfold indexArr
  simp only [List.mem_flatMap, List.mem_range]
  constructor
  · rintro ⟨c, -, hmem⟩
    obtain ⟨r, item, hcell, rfl⟩ := mem_columnScan.1 hmem
    exact ⟨r, c, item, hcell, rfl⟩
  · rintro ⟨r, c, item, hcell, rfl⟩
    exact ⟨c, cellAt_col_lt hcell, mem_columnScan.2 ⟨r, item, hcell, rfl⟩⟩

/-! ### Characterisation of `generateDownRoadData` -/

theorem cellAt_of_getElem? {g : RoadArray BigRoadItem} {r : Nat} {row : RoadRow BigRoadItem}
    (h : g[r]? = some row) (c : Nat) : cellAt g r c = rowAt row c := by
  unfold cellAt
  rw [h]
  rfl

theorem generateDownRoadData_ok_iff {g : RoadArray BigRoadItem} {rowGap : Nat}
    {l : List DownRoadItem} :
    generateDownRoadData g rowGap = .ok l ↔
      2 ≤ g.length ∧
        l = (match beginIndexOf g rowGap with
          | some B => downRoadFrom g rowGap B
          | none => []) := by
  unfold generateDownRoadData beginIndexOf
  cases h1 : g[1]? with
  | none =>
    have : g.length ≤ 1 := by simpa using h1
    simp
    omega
  | some row1 =>
    have hlen : 2 ≤ g.length := by
      obtain ⟨hlt, -⟩ := List.getElem?_eq_some_iff.1 h1
      omega
    cases h0 : g[0]? with
    | none =>
      have : g.length ≤ 0 := by simpa using h0
      omega
    | some row0 =>
      rw [cellAt_of_getElem? h1 rowGap, cellAt_of_getElem? h0 (rowGap + 1)]
      cases hA : rowAt row1 rowGap with
      | some item1 => simp only [hA]; simp [hlen, eq_comm]
      | none =>
        cases hB : rowAt row0 (rowGap + 1) with
        | some item2 => simp only [hA, hB]; simp [hlen, eq_comm]
        | none => simp only [hA, hB]; simp [hlen, eq_comm]

theorem generateDownRoadData_error_of_short {g : RoadArray BigRoadItem} {rowGap : Nat}
    (h : g.length < 2) : generateDownRoadData g rowGap = .error () := by
  cases hres : generateDownRoadData g rowGap with
  | error e => cases e; rfl
  | ok l =>
    obtain ⟨hlen, -⟩ := generateDownRoadData_ok_iff.1 hres
    omega

/-! ### Lemmas about `downRoadFrom` and `downMark` -/

theorem downMark_order (g : RoadArray BigRoadItem) (rowGap : Nat) (it : IndexItem) :
    (downMark g rowGap it).order = it.order := by
  unfold downMark
  split <;> rfl

theorem mem_downRoadFrom {g : RoadArray BigRoadItem} {rowGap : Nat} {B : Int}
    {m : DownRoadItem} :
    m ∈ downRoadFrom g rowGap B ↔
      ∃ it ∈ indexArr g, B ≤ it.order ∧ m = downMark g rowGap it := by
  unfold downRoadFrom
  simp only [List.mem_filterMap, List.mem_insertionSort]
  constructor
  · rintro ⟨it, hmem, hf⟩
    by_cases hord : B ≤ it.order
    · rw [if_pos hord, Option.some_inj] at hf
      exact ⟨it, hmem, hord, hf.symm⟩
    · rw [if_neg hord] at hf
      cases hf
  · rintro ⟨it, hmem, hord, rfl⟩
    exact ⟨it, hmem, by rw [if_pos hord]⟩

theorem downRoadFrom_order_ge {g : RoadArray BigRoadItem} {rowGap : Nat} {B : Int}
    {m : DownRoadItem} (h : m ∈ downRoadFrom g rowGap B) : B ≤ m.order := by
  obtain ⟨it, -, hord, rfl⟩ := mem_downRoadFrom.1 h
  rw [downMark_order]
  exact hord

theorem length_downRoadFrom (g : RoadArray BigRoadItem) (rowGap : Nat) (B : Int) :
    (downRoadFrom g rowGap B).length =
      (indexArr g).countP fun it => decide (B ≤ it.order) := by
  unfold downRoadFrom
  rw [List.length_filterMap_eq_countP]
  rw [(List.perm_insertionSort orderLE (indexArr g)).countP_eq]
  congr 1
  funext it
  by_cases hord : B ≤ it.order
  · rw [if_pos hord]
    simp [hord]
  · rw [if_neg hord]
    simp [hord]

/-! ### Counting marks -/

theorem countP_indexArr (g : RoadArray BigRoadItem) (p : IndexItem → Bool) :
    (indexArr g).countP p =
      ((List.range (maxColumnCount g)).map fun c => (columnScan g c).countP p).sum := by
  unfold indexArr
  rw [List.flatMap, List.countP_flatten, List.map_map]
  rfl

theorem countP_columnScan (g : RoadArray BigRoadItem) (c : Nat) (p : IndexItem → Bool) :
    (columnScan g c).countP p =
      (List.range g.length).countP fun r =>
        ((cellAt g r c).map fun item => p ⟨r, c, item.order⟩).getD false := by
  unfold columnScan
  rw [List.countP_filterMap]
  congr 1
  funext r
  cases cellAt g r c <;> rfl

theorem sum_map_range_le_of_le (f : Nat → Nat) {n n' : Nat} (h : n ≤ n') :
    ((List.range n).map f).sum ≤ ((List.range n').map f).sum := by
  obtain ⟨k, rfl⟩ := Nat.exists_eq_add_of_le h
  clear h
  induction k with
  | zero => exact Nat.le_refl _
  | succ k ih =>
    rw [← Nat.add_assoc, List.range_succ, List.map_append, List.sum_append]
    exact ih.trans (Nat.le_add_right _ _)

/-! ### Grid evolution -/

theorem GridEvolves.cell_mono {g g' : RoadArray BigRoadItem} (hev : GridEvolves g g')
    {r c : Nat} {item : BigRoadItem} (h : cellAt g r c = some item) :
    cellAt g' r c = some item := by
  have := hev.2.2.1 r (cellAt_row_lt h) c (cellAt_col_lt h) (by rw [h]; rfl)
  rw [h] at this
  exact this

theorem GridEvolves.maxColumnCount_mono {g g' : RoadArray BigRoadItem}
    (hev : GridEvolves g g') : maxColumnCount g ≤ maxColumnCount g' := by
  refine maxColumnCount_le g (maxColumnCount g') ?_
  intro r row hr
  have hrlt : r < g.length := by
    obtain ⟨hlt, -⟩ := List.getElem?_eq_some_iff.1 hr
    exact hlt
  have hrlt' : r < g'.length := hev.1 ▸ hrlt
  obtain ⟨row', hr'⟩ : ∃ row', g'[r]? = some row' := by
    exact ⟨g'[r], by simp [hrlt']⟩
  have h1 : rowLenAt g r = row.length := by unfold rowLenAt; rw [hr]; rfl
  have h2 : rowLenAt g' r = row'.length := by unfold rowLenAt; rw [hr']; rfl
  calc row.length = rowLenAt g r := h1.symm
    _ ≤ rowLenAt g' r := hev.2.1 r hrlt
    _ = row'.length := h2
    _ ≤ maxColumnCount g' := le_maxColumnCount g' r row' hr'

theorem countP_indexArr_order_mono {g g' : RoadArray BigRoadItem}
    (hev : GridEvolves g g') (B : Int) :
    ((indexArr g).countP fun it => decide (B ≤ it.order)) ≤
      ((indexArr g').countP fun it => decide (B ≤ it.order)) := by
  rw [countP_indexArr, countP_indexArr]
  refine le_trans (List.sum_le_sum ?_) (sum_map_range_le_of_le _ hev.maxColumnCount_mono)
  intro c hc
  rw [List.mem_range] at hc
  rw [countP_columnScan, countP_columnScan, ← hev.1]
  refine List.countP_mono_left ?_
  intro r hr hp
  rw [List.mem_range] at hr
  cases hcell : cellAt g r c with
  | none => rw [hcell] at hp; cases hp
  | some item =>
    rw [hcell] at hp
    rw [hev.2.2.1 r hr c hc (by rw [hcell]; rfl), hcell]
    exact hp

theorem beginIndexOf_stable {g g' : RoadArray BigRoadItem} (hev : GridEvolves g g')
    {rowGap : Nat} {B : Int} (hB : beginIndexOf g rowGap = some B) :
    beginIndexOf g' rowGap = some B := by
  unfold beginIndexOf at hB ⊢
  cases h1 : cellAt g 1 rowGap with
  | some item1 =>
    rw [h1, Option.some_inj] at hB
    rw [hev.cell_mono h1]
    exact congrArg some hB
  | none =>
    rw [h1] at hB
    cases h2 : cellAt g 0 (rowGap + 1) with
    | none => rw [h2] at hB; cases hB
    | some item2 =>
      rw [h2, Option.some_inj] at hB
      have h2' : cellAt g' 0 (rowGap + 1) = some item2 := hev.cell_mono h2
      have h1' : cellAt g' 1 rowGap = none := by
        cases h1x : cellAt g' 1 rowGap with
        | none => rfl
        | some item1' =>
          have hcol : rowGap < maxColumnCount g' := cellAt_col_lt h1x
          have := hev.2.2.2 rowGap hcol h1 (by rw [h2]; exact fun h => by cases h)
          rw [h1x] at this
          cases this
      rw [h1', h2']
      exact congrArg some hB

/-! ### Populated columns -/

theorem populatedCol_of_cellAt {g : RoadArray BigRoadItem} {r c : Nat}
    {item : BigRoadItem} (h : cellAt g r c = some item) : populatedCol g c := by
  unfold populatedCol colLength
  exact List.length_pos_of_mem (mem_columnScan.2 ⟨r, item, h, rfl⟩)

theorem populatedCount_ge {g : RoadArray BigRoadItem} {n : Nat}
    (hn : n ≤ maxColumnCount g) (h : ∀ d, d < n → populatedCol g d) :
    n ≤ populatedCount g := by
  unfold populatedCount
  rw [← List.countP_eq_length_filter]
  obtain ⟨k, hk⟩ := Nat.exists_eq_add_of_le hn
  rw [hk, List.range_add, List.countP_append]
  have h1 : (List.range n).countP (fun c => decide (populatedCol g c)) =
      (List.range n).length :=
    List.countP_eq_length.2 fun a ha => by
      rw [List.mem_range] at ha
      simpa using h a ha
  rw [List.length_range] at h1
  omega

/-! ### Claim theorems -/

/-- **C1** (amended): for every recorded cell at row 0 of column `c` with
order at least the begin order, the emitted mark's `repeats` equals: the
occupied-cell length of column `c − g − 1` equals the occupied-cell length of
column `c − 1` (the immediately preceding column — not column `c − g` as the
claim states), an absent column reference comparing as not equal unless both
sides are absent. -/
theorem downRoad_row0_repetition_compares_prev_column
    {g : RoadArray BigRoadItem} {rowGap : Nat} {l : List DownRoadItem} {B : Int}
    {c : Nat} {item : BigRoadItem}
    (hgen : generateDownRoadData g rowGap = .ok l)
    (hB : beginIndexOf g rowGap = some B)
    (hcell : cellAt g 0 c = some item)
    (hord : B ≤ item.order) :
    ∃ m ∈ l, m.order = item.order ∧
      m.repetition =
        decide (lengthAt g ((c : Int) - rowGap - 1) = lengthAt g ((c : Int) - 1)) := by
  obtain ⟨-, hl⟩ := generateDownRoadData_ok_iff.1 hgen
  rw [hB] at hl
  subst hl
  refine ⟨downMark g rowGap ⟨0, c, item.order⟩, ?_, ?_, ?_⟩
  · exact mem_downRoadFrom.2
      ⟨⟨0, c, item.order⟩, mem_indexArr.2 ⟨0, c, item, hcell, rfl⟩, hord, rfl⟩
  · exact downMark_order g rowGap ⟨0, c, item.order⟩
  · rfl

/-- **C1** counterexample to the claim as stated: on `cexGrid1` with gap 2 the
row-0 cell at column 3 (order 5) receives `repetition = false`, while the
claim's comparison of columns `c − g − 1 = 0` and `c − g = 1` (both of
length 1) evaluates to `true`. -/
theorem downRoad_row0_claim_counterexample :
    generateDownRoadData cexGrid1 2 = .ok [⟨4, false⟩, ⟨5, false⟩] ∧
    cellAt cexGrid1 0 3 = some ⟨5⟩ ∧
    beginIndexOf cexGrid1 2 = some 4 ∧
    decide (lengthAt cexGrid1 ((3 : Int) - 2 - 1) = lengthAt cexGrid1 ((3 : Int) - 2)) = true := by
  decide

/-- Witness for **C1**: the amended theorem applied to `wGrid`, gap 1, at the
row-0 cell `(0, 2)` of order 4. -/
theorem downRoad_row0_repetition_compares_prev_column_witness :
    ∃ m ∈ [(⟨3, false⟩ : DownRoadItem), ⟨4, false⟩, ⟨5, true⟩],
      m.order = (4 : Int) ∧
      m.repetition =
        decide (lengthAt wGrid ((2 : Int) - 1 - 1) = lengthAt wGrid ((2 : Int) - 1)) :=
  @downRoad_row0_repetition_compares_prev_column wGrid 1
    [⟨3, false⟩, ⟨4, false⟩, ⟨5, true⟩] 3 2 ⟨4⟩
    (by decide) (by decide) (by decide) (by decide)

/-- **C2** (confirmed): for every recorded cell at a row index `r > 0` with
order at least the begin order, the emitted mark's `repeats` is
`lastItem` absent `||` `targetItem` present (where `lastItem` is the cell one
row above, `g` columns to the left, and `targetItem` the cell in the same
row, `g` columns to the left); equivalently, it is `false` exactly when
`lastItem` is present and `targetItem` is absent. -/
theorem downRoad_tail_repetition_rule
    {g : RoadArray BigRoadItem} {rowGap : Nat} {l : List DownRoadItem} {B : Int}
    {r c : Nat} {item : BigRoadItem}
    (hgen : generateDownRoadData g rowGap = .ok l)
    (hB : beginIndexOf g rowGap = some B)
    (hcell : cellAt g r c = some item)
    (hr : r ≠ 0)
    (hord : B ≤ item.order) :
    ∃ m ∈ l, m.order = item.order ∧
      m.repetition =
        ((cellAtI g (r - 1) ((c : Int) - rowGap)).isNone ||
          (cellAtI g r ((c : Int) - rowGap)).isSome) ∧
      (m.repetition = false ↔
        (cellAtI g (r - 1) ((c : Int) - rowGap)).isSome = true ∧
          cellAtI g r ((c : Int) - rowGap) = none) := by
  obtain ⟨-, hl⟩ := generateDownRoadData_ok_iff.1 hgen
  rw [hB] at hl
  subst hl
  refine ⟨downMark g rowGap ⟨r, c, item.order⟩, ?_, ?_, ?_, ?_⟩
  · exact mem_downRoadFrom.2
      ⟨⟨r, c, item.order⟩, mem_indexArr.2 ⟨r, c, item, hcell, rfl⟩, hord, rfl⟩
  · exact downMark_order g rowGap ⟨r, c, item.order⟩
  · unfold downMark
    rw [if_neg hr]
  · unfold downMark
    rw [if_neg hr]
    cases h1 : cellAtI g (r - 1) ((c : Int) - rowGap) <;>
      cases h2 : cellAtI g r ((c : Int) - rowGap) <;> simp

/-- Witness for **C2**: the theorem applied to `wGrid`, gap 1, at the tail
cell `(1, 2)` of order 5. -/
theorem downRoad_tail_repetition_rule_witness :
    ∃ m ∈ [(⟨3, false⟩ : DownRoadItem), ⟨4, false⟩, ⟨5, true⟩],
      m.order = (5 : Int) ∧
      m.repetition =
        ((cellAtI wGrid (1 - 1) ((2 : Int) - 1)).isNone ||
          (cellAtI wGrid 1 ((2 : Int) - 1)).isSome) ∧
      (m.repetition = false ↔
        (cellAtI wGrid (1 - 1) ((2 : Int) - 1)).isSome = true ∧
          cellAtI wGrid 1 ((2 : Int) - 1) = none) :=
  @downRoad_tail_repetition_rule wGrid 1
    [⟨3, false⟩, ⟨4, false⟩, ⟨5, true⟩] 3 1 2 ⟨5⟩
    (by decide) (by decide) (by decide) (by decide) (by decide)

/-- **C3** (amended): for every grid with at least two rows — on a grid with
fewer rows the builder faults instead of returning — the begin order is the
order of the cell at `(1, g)` if present, else the order of the cell at
`(0, g + 1)` if present, else the output is empty; and every emitted mark's
order is at least the begin order. -/
theorem downRoad_beginIndex_selection
    {g : RoadArray BigRoadItem} {rowGap : Nat} (h2 : 2 ≤ g.length) :
    (∀ item1, cellAt g 1 rowGap = some item1 →
      generateDownRoadData g rowGap = .ok (downRoadFrom g rowGap item1.order)) ∧
    (cellAt g 1 rowGap = none → ∀ item2, cellAt g 0 (rowGap + 1) = some item2 →
      generateDownRoadData g rowGap = .ok (downRoadFrom g rowGap item2.order)) ∧
    (cellAt g 1 rowGap = none → cellAt g 0 (rowGap + 1) = none →
      generateDownRoadData g rowGap = .ok []) ∧
    (∀ (B : Int) (m : DownRoadItem), m ∈ downRoadFrom g rowGap B → B ≤ m.order) := by
  refine ⟨?_, ?_, ?_, fun B m hm => downRoadFrom_order_ge hm⟩
  · intro item1 h1
    refine generateDownRoadData_ok_iff.2 ⟨h2, ?_⟩
    unfold beginIndexOf
    rw [h1]
  · intro h1 item2 h2'
    refine generateDownRoadData_ok_iff.2 ⟨h2, ?_⟩
    unfold beginIndexOf
    rw [h1, h2']
  · intro h1 h2'
    refine generateDownRoadData_ok_iff.2 ⟨h2, ?_⟩
    unfold beginIndexOf
    rw [h1, h2']

/-- **C3** counterexample to the claim as stated: on the grid with no rows,
both probed cells are absent, yet the builder does not return an empty
sequence — it faults (reads a property of an `undefined` row). -/
theorem downRoad_beginIndex_claim_counterexample :
    cellAt ([] : RoadArray BigRoadItem) 1 1 = none ∧
    cellAt ([] : RoadArray BigRoadItem) 0 2 = none ∧
    generateDownRoadData ([] : RoadArray BigRoadItem) 1 = .error () := by
  decide

/-- Witness for **C3**: the amended theorem applied to `wGrid`, gap 1, whose
cell `(1, 1)` is present with order 3. -/
theorem downRoad_beginIndex_selection_witness :
    generateDownRoadData wGrid 1 = .ok (downRoadFrom wGrid 1 3) :=
  (@downRoad_beginIndex_selection wGrid 1 (by decide)).1 ⟨3⟩ (by decide)

/-- **C4** (amended): for every grid with at least two rows whose populated
columns form an initial segment (as in every primary grid), if fewer than
`g + 1` columns are populated the builder returns an empty sequence without
faulting; on a grid with fewer than two rows the builder faults instead. -/
theorem downRoad_insufficient_columns_empty
    {g : RoadArray BigRoadItem} {rowGap : Nat}
    (h2 : 2 ≤ g.length) (hlf : LeftFilled g)
    (hcount : populatedCount g < rowGap + 1) :
    generateDownRoadData g rowGap = .ok [] := by
  have h1 : cellAt g 1 rowGap = none := by
    cases hx : cellAt g 1 rowGap with
    | none => rfl
    | some item =>
      exfalso
      have hpop : populatedCol g rowGap := populatedCol_of_cellAt hx
      have hcl : rowGap < maxColumnCount g := cellAt_col_lt hx
      have hall : ∀ d, d < rowGap + 1 → populatedCol g d := by
        intro d hd
        rcases Nat.lt_or_ge d rowGap with hlt | hge
        · exact hlf rowGap hcl d hlt hpop
        · have hdr : d = rowGap := by omega
          rw [hdr]
          exact hpop
      have := populatedCount_ge (by omega) hall
      omega
  have h2' : cellAt g 0 (rowGap + 1) = none := by
    cases hx : cellAt g 0 (rowGap + 1) with
    | none => rfl
    | some item =>
      exfalso
      have hpop : populatedCol g (rowGap + 1) := populatedCol_of_cellAt hx
      have hcl : rowGap + 1 < maxColumnCount g := cellAt_col_lt hx
      have hall : ∀ d, d < rowGap + 2 → populatedCol g d := by
        intro d hd
        rcases Nat.lt_or_ge d (rowGap + 1) with hlt | hge
        · exact hlf (rowGap + 1) hcl d hlt hpop
        · have hdr : d = rowGap + 1 := by omega
          rw [hdr]
          exact hpop
      have := populatedCount_ge (by omega) hall
      omega
  refine generateDownRoadData_ok_iff.2 ⟨h2, ?_⟩
  unfold beginIndexOf
  rw [h1, h2']

/-- **C4** counterexample to the claim as stated: the one-row grid with no
occupied cell is an empty grid (zero populated columns, fewer than `g + 1`),
yet for gap 2 the builder faults instead of returning an empty sequence. -/
theorem downRoad_empty_grid_claim_counterexample :
    populatedCount ([[]] : RoadArray BigRoadItem) = 0 ∧
    generateDownRoadData ([[]] : RoadArray BigRoadItem) 2 = .error () := by
  decide

/-- Witness for **C4**: a two-row grid with one populated column, gap 2. -/
theorem downRoad_insufficient_columns_empty_witness :
    generateDownRoadData [[some ⟨1⟩], [none]] 2 = .ok [] :=
  downRoad_insufficient_columns_empty (by decide) (by decide) (by decide)

/-- If the grid has at least two rows, `generateDownRoadData` cannot fault. -/
theorem generateDownRoadData_ok_of_rows {g : RoadArray BigRoadItem} (rowGap : Nat)
    (h2 : 2 ≤ g.length) : ∃ l, generateDownRoadData g rowGap = .ok l :=
  ⟨_, generateDownRoadData_ok_iff.2 ⟨h2, rfl⟩⟩

/-- **C5** (amended): whenever the primary grid built over the extended
history has at least two rows, the prediction returns the `repetition` of the
last mark of the derived road built over the history extended with the
hypothetical round (`none`, the "unknown" value, when that sequence is
empty) and does not fault; when the built grid has fewer than two rows the
prediction faults instead (see the counterexample). -/
theorem getPrediction_last_mark
    (build : List RoundResult → RoadArray BigRoadItem)
    (roundResults : List RoundResult) (fakeNextRound : RoundResult) (downRoadGap : Nat)
    (hrows : 2 ≤ (build (roundResults ++ [fakeNextRound])).length) :
    ∃ l, generateDownRoadData (build (roundResults ++ [fakeNextRound])) downRoadGap = .ok l ∧
      getPrediction build roundResults fakeNextRound downRoadGap =
        .ok ((l.getLast?).map fun it => it.repetition) := by
  have hmap : roundResults.map RoundResult.from' = roundResults := by
    have h : RoundResult.from' = id := funext fun r => rfl
    rw [h, List.map_id]
  obtain ⟨l, hl⟩ := generateDownRoadData_ok_of_rows downRoadGap hrows
  refine ⟨l, hl, ?_⟩
  unfold getPrediction
  rw [hmap]
  show Except.map (fun fakeDownRoadData => Option.map (fun it => it.repetition)
      fakeDownRoadData.getLast?)
      (generateDownRoadData (build (roundResults ++ [fakeNextRound])) downRoadGap) =
    Except.ok (Option.map (fun it => it.repetition) l.getLast?)
  rw [hl]
  rfl

/-- **C5** counterexample to the claim as stated: with grid dimension
`row = 1` (a valid positive-integer dimension) the primary grid has a single
row, and the prediction faults instead of returning a value. -/
theorem getPrediction_claim_counterexample :
    getPrediction (sharedBigRoadRawArrayRows 1) []
      ⟨0, 0, GameResult.BankerWin, PairResult.NoPair⟩ 1 = .error () := by
  decide

/-- Witness for **C5**: a two-row (empty) built grid; the prediction is
`ok none` — the "unknown" value. -/
theorem getPrediction_last_mark_witness :
    ∃ l, generateDownRoadData ([[], []] : RoadArray BigRoadItem) 1 = .ok l ∧
      getPrediction (fun _ => ([[], []] : RoadArray BigRoadItem)) []
        ⟨0, 0, GameResult.BankerWin, PairResult.NoPair⟩ 1 =
        .ok ((l.getLast?).map fun it => it.repetition) :=
  getPrediction_last_mark (fun _ => [[], []]) []
    ⟨0, 0, GameResult.BankerWin, PairResult.NoPair⟩ 1 (by decide)

/-- **C6** (confirmed): the prediction is a pure function of the recorded
history — two calls in succession give identical results — and it operates on
a value-copied history: `RoundResult.from` yields field-equal copies, so the
copied list it simulates over equals the recorded history element by element
and in length, and the recorded history itself is untouched. -/
theorem getPrediction_pure_frame
    (build : List RoundResult → RoadArray BigRoadItem)
    (roundResults : List RoundResult) (fakeNextRound : RoundResult) (downRoadGap : Nat) :
    getPrediction build roundResults fakeNextRound downRoadGap =
      getPrediction build roundResults fakeNextRound downRoadGap ∧
    roundResults.map RoundResult.from' = roundResults ∧
    (roundResults.map RoundResult.from').length = roundResults.length ∧
    ∀ r ∈ roundResults, RoundResult.from' r = r := by
  have h : RoundResult.from' = id := funext fun r => rfl
  exact ⟨rfl, by rw [h, List.map_id], by rw [h, List.map_id], fun r _ => rfl⟩

/-- **C7** (confirmed): when the grid's cells carry pairwise-distinct orders,
the emitted marks are strictly ascending by order with no duplicates, every
mark's order equals the order of exactly one source cell, and the output
length is at most the number of recorded cells with order at least the begin
order. -/
theorem downRoad_orders_strictly_ascending
    {g : RoadArray BigRoadItem} {rowGap : Nat} {l : List DownRoadItem} {B : Int}
    (hgen : generateDownRoadData g rowGap = .ok l)
    (hB : beginIndexOf g rowGap = some B)
    (hnd : ((indexArr g).map IndexItem.order).Nodup) :
    l.Pairwise (fun a b => a.order < b.order) ∧
    (∀ m ∈ l, ((indexArr g).countP fun it => decide (it.order = m.order)) = 1) ∧
    l.length ≤ ((indexArr g).countP fun it => decide (B ≤ it.order)) := by
  obtain ⟨-, hl⟩ := generateDownRoadData_ok_iff.1 hgen
  rw [hB] at hl
  subst hl
  refine ⟨?_, ?_, ?_⟩
  · have hsorted : (List.insertionSort orderLE (indexArr g)).Pairwise orderLE := by
      haveI : IsTotal IndexItem orderLE := ⟨fun a b => Int.le_total a.order b.order⟩
      haveI : IsTrans IndexItem orderLE := ⟨fun a b c hab hbc => le_trans hab hbc⟩
      exact List.sorted_insertionSort orderLE (indexArr g)
    have hndS : ((List.insertionSort orderLE (indexArr g)).map IndexItem.order).Nodup :=
      ((List.perm_insertionSort orderLE (indexArr g)).map IndexItem.order).nodup_iff.2 hnd
    have hne : (List.insertionSort orderLE (indexArr g)).Pairwise
        (fun a b => a.order ≠ b.order) := List.pairwise_map.1 hndS
    have hstrict : (List.insertionSort orderLE (indexArr g)).Pairwise
        (fun a b => a.order < b.order) :=
      (hsorted.and hne).imp fun h => lt_of_le_of_ne h.1 h.2
    unfold downRoadFrom
    rw [List.pairwise_filterMap]
    refine hstrict.imp ?_
    intro a b hab x hx y hy
    by_cases ha : B ≤ a.order
    · by_cases hb : B ≤ b.order
      · rw [if_pos ha] at hx
        rw [if_pos hb] at hy
        rw [Option.mem_def, Option.some_inj] at hx hy
        rw [← hx, ← hy, downMark_order, downMark_order]
        exact hab
      · rw [if_neg hb] at hy
        cases hy
    · rw [if_neg ha] at hx
      cases hx
  · intro m hm
    obtain ⟨it, hmem, -, rfl⟩ := mem_downRoadFrom.1 hm
    rw [downMark_order]
    have h1 : ((indexArr g).countP fun x => decide (x.order = it.order)) =
        ((indexArr g).map IndexItem.order).count it.order := by
      rw [List.count, List.countP_map]
      refine List.countP_congr fun a _ => ?_
      constructor
      · intro hx
        simpa using of_decide_eq_true hx
      · intro hx
        have : a.order = it.order := by simpa using hx
        exact decide_eq_true this
    rw [h1]
    exact List.count_eq_one_of_mem hnd (List.mem_map.2 ⟨it, hmem, rfl⟩)
  · rw [length_downRoadFrom]

/-- Witness for **C7**: the theorem applied to `wGrid` with gap 1. -/
theorem downRoad_orders_strictly_ascending_witness :
    ([(⟨3, false⟩ : DownRoadItem), ⟨4, false⟩, ⟨5, true⟩]).Pairwise
      (fun a b => a.order < b.order) ∧
    (∀ m ∈ [(⟨3, false⟩ : DownRoadItem), ⟨4, false⟩, ⟨5, true⟩],
      ((indexArr wGrid).countP fun it => decide (it.order = m.order)) = 1) ∧
    ([(⟨3, false⟩ : DownRoadItem), ⟨4, false⟩, ⟨5, true⟩]).length ≤
      ((indexArr wGrid).countP fun it => decide ((3 : Int) ≤ it.order)) :=
  @downRoad_orders_strictly_ascending wGrid 1 [⟨3, false⟩, ⟨4, false⟩, ⟨5, true⟩] 3
    (by decide) (by decide) (by decide)

/-- **C8** (confirmed): `Road` construction fails exactly when a dimension is
not a positive integer, and for positive-integer dimensions it succeeds with
`rowCount` and `columnCount` returning exactly the given values. -/
theorem roadConstruct_dimension_validation (row column : Rat) (results : List RoundResult) :
    (roadConstruct row column results = .error () ↔
      ¬(row.den = 1 ∧ 0 < row ∧ column.den = 1 ∧ 0 < column)) ∧
    ((row.den = 1 ∧ 0 < row ∧ column.den = 1 ∧ 0 < column) →
      roadConstruct row column results = .ok ⟨row, column, results⟩ ∧
      RoadState.rowCount ⟨row, column, results⟩ = row ∧
      RoadState.columnCount ⟨row, column, results⟩ = column) := by
  have hiff : (¬(row.den = 1) ∨ ¬(column.den = 1) ∨ row ≤ 0 ∨ column ≤ 0) ↔
      ¬(row.den = 1 ∧ 0 < row ∧ column.den = 1 ∧ 0 < column) := by
    constructor
    · rintro (h | h | h | h) ⟨h1, h2, h3, h4⟩
      · exact h h1
      · exact h h3
      · exact absurd h2 (not_lt.2 h)
      · exact absurd h4 (not_lt.2 h)
    · intro h
      by_contra hx
      push_neg at hx
      obtain ⟨a, c, hr, hc⟩ := hx
      exact h ⟨a, hr, c, hc⟩
  constructor
  · unfold roadConstruct
    split_ifs with h
    · exact iff_of_true rfl (hiff.1 h)
    · exact iff_of_false (by simp) fun hx => h (hiff.2 hx)
  · intro hvalid
    unfold roadConstruct
    rw [if_neg fun h => (hiff.1 h) hvalid]
    exact ⟨rfl, rfl, rfl⟩

/-- Witness for **C8**: dimensions 6 × 3 construct successfully with the
exact counts; dimension 0 is rejected. -/
theorem roadConstruct_dimension_validation_witness :
    (roadConstruct 6 3 [] = .ok ⟨6, 3, []⟩ ∧
      RoadState.rowCount ⟨6, 3, []⟩ = 6 ∧
      RoadState.columnCount ⟨6, 3, []⟩ = 3) ∧
    roadConstruct 6 0 [] = .error () :=
  ⟨(roadConstruct_dimension_validation 6 3 []).2
      ⟨by decide, by decide, by decide, by decide⟩,
    (roadConstruct_dimension_validation 6 0 []).1.mpr fun hx => by
      exact absurd hx.2.2.2 (by decide)⟩

/-- **C9** (confirmed over the modelled grid evolution): when the primary
grid evolves by appending rounds (`GridEvolves`), the derived road never gets
shorter: marks are never retracted. -/
theorem downRoad_length_monotone
    {g g' : RoadArray BigRoadItem} {rowGap : Nat} {l l' : List DownRoadItem}
    (hev : GridEvolves g g')
    (h : generateDownRoadData g rowGap = .ok l)
    (h' : generateDownRoadData g' rowGap = .ok l') :
    l.length ≤ l'.length := by
  obtain ⟨-, hl⟩ := generateDownRoadData_ok_iff.1 h
  obtain ⟨-, hl'⟩ := generateDownRoadData_ok_iff.1 h'
  cases hB : beginIndexOf g rowGap with
  | none =>
    rw [hB] at hl
    subst hl
    exact Nat.zero_le _
  | some B =>
    rw [hB] at hl
    rw [beginIndexOf_stable hev hB] at hl'
    subst hl
    subst hl'
    rw [length_downRoadFrom, length_downRoadFrom]
    exact countP_indexArr_order_mono hev B

/-- Witness for **C9**: `wGrid` evolving to `wGridNext` (one round appended,
opening column 3), gap 1: three marks grow to four. -/
theorem downRoad_length_monotone_witness :
    ([(⟨3, false⟩ : DownRoadItem), ⟨4, false⟩, ⟨5, true⟩]).length ≤
      ([(⟨3, false⟩ : DownRoadItem), ⟨4, false⟩, ⟨5, true⟩, ⟨6, true⟩]).length :=
  @downRoad_length_monotone wGrid wGridNext 1
    [⟨3, false⟩, ⟨4, false⟩, ⟨5, true⟩] [⟨3, false⟩, ⟨4, false⟩, ⟨5, true⟩, ⟨6, true⟩]
    (by decide) (by decide) (by decide)

/-- **C10** (confirmed): `getItem` with a row index outside the backing array
does not return the "absent" value — it faults (reads a property of an
`undefined` row); with an in-bounds row index it totally returns the cell or
"absent", for any column index. -/
theorem getItem_out_of_bounds_row_fails
    {T : Type} (array : RoadArray T) (rowIndex columnIndex : Nat) :
    (array.length ≤ rowIndex →
      Road.getItem array rowIndex columnIndex = .error ()) ∧
    (rowIndex < array.length →
      ∃ row, array[rowIndex]? = some row ∧
        Road.getItem array rowIndex columnIndex = .ok (rowAt row columnIndex)) := by
  constructor
  · intro h
    unfold Road.getItem
    rw [List.getElem?_eq_none h]
  · intro h
    refine ⟨array[rowIndex], List.getElem?_eq_getElem h, ?_⟩
    unfold Road.getItem
    rw [List.getElem?_eq_getElem h]

/-- Witness for **C10**: a one-row array; row 5 faults, row 0 reads the cell. -/
theorem getItem_out_of_bounds_row_fails_witness :
    Road.getItem ([[some ⟨1⟩]] : RoadArray BigRoadItem) 5 0 = .error () ∧
    ∃ row, ([[some ⟨1⟩]] : RoadArray BigRoadItem)[0]? = some row ∧
      Road.getItem ([[some ⟨1⟩]] : RoadArray BigRoadItem) 0 0 = .ok (rowAt row 0) :=
  ⟨(getItem_out_of_bounds_row_fails [[some ⟨1⟩]] 5 0).1 (by decide),
    (getItem_out_of_bounds_row_fails [[some ⟨1⟩]] 0 0).2 (by decide)⟩

end Baccarat
